import Mathlib

/-!
Shallow embedding of the storage device dependency-graph and lifecycle core of
`src/storage/devices.py` (the anaconda storage device hierarchy), together with
theorems settling the specification's claims about it.

Modelling conventions:
* Python's numeric tower (ints, longs and floats) is modelled exactly over `ℚ`
  and `ℤ`; `long()` truncation toward zero is `pyLong`.
* The tri-state `exists` attribute (`None` / `False` / `True`) is `Option Bool`;
  Python truthiness of that attribute is `truthy`.
* Methods that mutate `self` become pure functions returning the new state; a
  method that can `raise` returns `Except StorageErr`.  An `.error` result
  corresponds to a raise happening before any assignment to the fields of the
  returned state, so the caller's object is unchanged.
* Calls into external collaborators (lvm tools, device-mapper, parent device
  setup) are recorded as events in a returned trace list, in program order.
-/

/-- Python truthiness of the tri-state `exists` attribute: `None` and `False`
are falsy, `True` is truthy. -/
def truthy : Option Bool → Bool
  | none => false
  | some b => b

/-- The exceptions raised by the lifecycle code: `DeviceError(msg, name)`,
`DiskLabelCommitError` and `ValueError(msg)`. -/
inductive StorageErr where
  | deviceError (msg : String) (devName : String)
  | diskLabelCommitError (msg : String)
  | valueError (msg : String)
deriving Repr, DecidableEq

/-- Python `long()` / `int()` conversion of a float: truncation toward zero. -/
def pyLong (q : ℚ) : ℤ := if q < 0 then ⌈q⌉ else ⌊q⌋

/-- The child-count bookkeeping of the base `Device` class
(`devices.py:205-230`): `kids` is a plain Python integer counter, initialised
to 0 at construction. -/
structure Device where
  name : String
  kids : ℤ
deriving Repr, DecidableEq

/-- `Device.removeChild` (`devices.py:272-274`): decrements `kids`.  There is
no guard against the counter going negative. -/
def Device.removeChild (d : Device) : Device :=
  { d with kids := d.kids - 1 }

/-- `Device.addChild` (`devices.py:276-278`): increments `kids`. -/
def Device.addChild (d : Device) : Device :=
  { d with kids := d.kids + 1 }

/-- `Device.isleaf` (`devices.py:345-348`): true iff the child count is zero. -/
def Device.isleaf (d : Device) : Bool := d.kids == 0

/-- A sequence of `addChild` / `removeChild` calls applied in order
(`true` = `addChild`, `false` = `removeChild`). -/
def Device.applyChildOps (d : Device) : List Bool → Device
  | [] => d
  | b :: rest => Device.applyChildOps (if b then d.addChild else d.removeChild) rest

/-- Format state as seen through the narrow format interface the device code
uses (`format.status`, `format.exists`, `format.type`; spec section 6). -/
structure DeviceFormat where
  fmtType : Option String
  status : Bool
  fmtExists : Bool
deriving Repr, DecidableEq

/-- Modelled from the spec: `getFormat(None, device=..., exists=...)` lives in
the formats package, which is not under `src/`; per the spec (section 6) the
format abstraction is an external collaborator, and a `None` argument yields an
inert placeholder format (no type, not active). -/
def getFormatNone (deviceExists : Option Bool) : DeviceFormat :=
  { fmtType := none, status := false, fmtExists := truthy deviceExists }

/-- The state of a parent device as observed by `StorageDevice.create` /
`destroy`: its `exists` flag and its child counter. -/
structure ParentDevice where
  name : String
  exists_ : Option Bool
  kids : ℤ
deriving Repr, DecidableEq

/-- The fields of `StorageDevice` (`devices.py:436-486`) that its lifecycle
methods read or write: `exists` (tri-state, field `exists_`), the inherited
child counter `kids`, the parent list and the owned format `_format`
(initialised `None`, then set through the `format` property setter). -/
structure StorageDevice where
  name : String
  exists_ : Option Bool
  kids : ℤ
  parents : List ParentDevice
  _format : Option DeviceFormat
deriving Repr, DecidableEq

/-- External calls made, in order, by a successful `StorageDevice.create`:
each parent's `setup()` (from `setupParents`, `devices.py:296-300`), then the
`self.exists = True` assignment, then `self.setup()`. -/
inductive CreateEv where
  | parentSetup (parentName : String)
  | markExists
  | selfSetup
deriving Repr, DecidableEq

/-- `Device.createParents` (`devices.py:307-313`).  Recursive device creation
is disabled in the source (the `parent.create()` call is commented out, and the
method logs "NOTE: recursive device creation disabled"); instead the method
raises `DeviceError("parent device does not exist", self.name)` as soon as it
meets a parent whose `exists` is not truthy. -/
def Device.createParents (d : StorageDevice) : Except StorageErr Unit :=
  if d.parents.all (fun p => truthy p.exists_) then .ok ()
  else .error (.deviceError "parent device does not exist" d.name)

/-- `StorageDevice.create` (`devices.py:744-753`): raise `DeviceError` if
`exists` is truthy; otherwise run `createParents`, then `setupParents`, then
set `exists = True`, then run `setup`.  Parent `setup()` calls and `setup()`
are recorded as trace events (their internals touch only external state and
cannot fail here: every parent was just verified to exist, and `self.exists`
is true by the time `self.setup()` runs). -/
def StorageDevice.create (d : StorageDevice) :
    Except StorageErr (StorageDevice × List CreateEv) :=
  if truthy d.exists_ then .error (.deviceError "device has already been created" d.name)
  else
    match Device.createParents d with
    | .error e => .error e
    | .ok () =>
        .ok ({ d with exists_ := some true },
          d.parents.map (fun p => CreateEv.parentSetup p.name)
            ++ [CreateEv.markExists, CreateEv.selfSetup])

/-- `StorageDevice.destroy` (`devices.py:755-767`): raise `DeviceError` if
`exists` is not truthy, raise `DeviceError` if the device is not a leaf,
otherwise set `exists = False`.  The parent `removeChild()` loop is commented
out in the source ("we already did this in DeviceTree._removeDevice"), so no
parent child count changes. -/
def StorageDevice.destroy (d : StorageDevice) : Except StorageErr StorageDevice :=
  if ¬ truthy d.exists_ then .error (.deviceError "device has not been created" d.name)
  else if ¬ d.kids == 0 then .error (.deviceError "Cannot destroy non-leaf device" d.name)
  else .ok { d with exists_ := some false }

/-- `create()` immediately followed by `destroy()` on the same device, with no
external tampering in between. -/
def StorageDevice.createThenDestroy (d : StorageDevice) : Except StorageErr StorageDevice :=
  match StorageDevice.create d with
  | .error e => .error e
  | .ok (d1, _) => StorageDevice.destroy d1

/-- `StorageDevice._setFormat` (`devices.py:720-731`): a `None` argument is
replaced by `getFormat(None, ...)`; then, if the current format is set and
reports `status` true, raise `DeviceError("cannot replace active format")`
before any assignment (so the current format is untouched); otherwise install
the new format. -/
def StorageDevice._setFormat (d : StorageDevice) (format : Option DeviceFormat) :
    Except StorageErr StorageDevice :=
  let f := format.getD (getFormatNone d.exists_)
  match d._format with
  | some g =>
      if g.status then .error (.deviceError "cannot replace active format" d.name)
      else .ok { d with _format := some f }
  | none => .ok { d with _format := some f }

/-- External calls made by `LVMLogicalVolumeDevice.destroy`, in program order:
`lvm.lvremove` for each snapshot, `self.teardown()`, `self.vg.setupParents
(orig=True)`, and the final `lvm.lvremove` for the volume itself. -/
inductive LvmEv where
  | lvremoveSnapshot (snap : String)
  | teardownSelf
  | vgSetupParentsOrig
  | lvremoveSelf
deriving Repr, DecidableEq

/-- The fields of `LVMLogicalVolumeDevice` its `destroy` method reads:
`exists`, the inherited child counter, and the snapshot name list.  The child
counter is nonzero exactly when other devices (for a thin pool: its thin
logical volumes, which name the pool as their single parent) depend on it. -/
structure LVMLogicalVolumeDevice where
  name : String
  exists_ : Option Bool
  kids : ℤ
  snapshots : List String
deriving Repr, DecidableEq

/-- `LVMLogicalVolumeDevice.destroy` (`devices.py:2634-2647`): raise
`DeviceError` if `exists` is not truthy; otherwise remove every snapshot, tear
the volume down, set up the volume group's physical volumes, issue
`lvm.lvremove` for the volume and set `exists = False`.  Unlike
`StorageDevice.destroy`, there is no `isleaf` check. -/
def LVMLogicalVolumeDevice.destroy (d : LVMLogicalVolumeDevice) :
    Except StorageErr (LVMLogicalVolumeDevice × List LvmEv) :=
  if ¬ truthy d.exists_ then .error (.deviceError "device has not been created" d.name)
  else
    .ok ({ d with exists_ := some false },
      d.snapshots.map LvmEv.lvremoveSnapshot
        ++ [LvmEv.teardownSelf, LvmEv.vgSetupParentsOrig, LvmEv.lvremoveSelf])

/-- External calls made by `PartitionDevice.destroy`, in program order:
`self.setupParents(orig=True)`, `removePartition` on the original disklabel,
the disklabel `commit`, and (only on commit failure) the rollback
`addPartition`. -/
inductive PartEv where
  | setupParentsOrig
  | removePartition
  | commitLabel
  | addPartitionRollback
deriving Repr, DecidableEq

/-- The fields of `PartitionDevice` its `destroy` method reads: `exists`,
`sysfsPath` and the inherited child counter. -/
structure PartitionDevice where
  name : String
  exists_ : Option Bool
  sysfsPath : String
  kids : ℤ
deriving Repr, DecidableEq

/-- `PartitionDevice.destroy` (`devices.py:1401-1425`): raise `DeviceError` if
`exists` is not truthy; then, if `sysfsPath` is empty, return silently (no
leaf check, no disklabel change, `exists` untouched); then raise `DeviceError`
if the device is not a leaf; otherwise set up parents, remove the partition
from the original disklabel and commit.  If the commit raises
`DiskLabelCommitError` the partition is re-added (rollback) and the error is
re-raised, leaving `exists` truthy; on success `exists` becomes `False`.
`commitOk` says whether the external commit succeeds; an error result carries
the trace of external calls issued before/while raising. -/
def PartitionDevice.destroy (commitOk : Bool) (d : PartitionDevice) :
    Except (StorageErr × List PartEv) (PartitionDevice × List PartEv) :=
  if ¬ truthy d.exists_ then
    .error (.deviceError "device has not been created" d.name, [])
  else if d.sysfsPath = "" then .ok (d, [])
  else if ¬ d.kids == 0 then
    .error (.deviceError "Cannot destroy non-leaf device" d.name, [])
  else if commitOk then
    .ok ({ d with exists_ := some false },
      [PartEv.setupParentsOrig, PartEv.removePartition, PartEv.commitLabel])
  else
    .error (.diskLabelCommitError "disklabel commit failed",
      [PartEv.setupParentsOrig, PartEv.removePartition, PartEv.commitLabel,
        PartEv.addPartitionRollback])

/-- Python float `%` for a positive modulus: `x - y * floor (x / y)`. -/
def pyFloatMod (x y : ℚ) : ℚ := x - y * ⌊x / y⌋

/-- The `while headroom << 10 > array_size: headroom >>= 1` loop of
`MDRaidArrayDevice.superBlockSize` (`devices.py:2972-2974`), starting from
`headroom = 128`.  `headroom << 10` is `headroom * 1024`.  When `headroom`
reaches 0 the Python loop exits for any nonnegative `array_size` (the only
values the callers produce); we return 0 there.
The loop halves `headroom` on each iteration, so starting from 128 it makes at
most 9 calls; `fuel` is a structural bound on the remaining iterations, and
callers pass `fuel = 128`, far more than the loop can consume, so the
fuel-exhausted branch is unreachable from `superBlockSize`. -/
def sbHeadroomLoop (arraySize : ℚ) (fuel headroom : ℕ) : ℕ :=
  if headroom = 0 then 0
  else if fuel = 0 then headroom
  else if (headroom : ℚ) * 1024 > arraySize then
    sbHeadroomLoop arraySize (fuel - 1) (headroom / 2)
  else headroom
termination_by fuel
decreasing_by omega

/-- The fields of `MDRaidArrayDevice` (`devices.py:2853-2920`) read by its
`size`, `rawArraySize` and `superBlockSize` properties.  `memberSizes` lists
`d.size` for each member device in `self.parents` (= `self.devices`), in list
order; `level` is the numeric RAID level produced by `mdraid.raidLevel`;
`chunkSize` is fixed at `512.0/1024.0` MB by the constructor;
`metadataVersion` defaults to `"1.1"`; `isBiosRaidArray` is whether the
constructor retyped the array to `"mdbiosraidarray"` (first parent an
mdcontainer); `hasPartedDevice` is whether `self.partedDevice` is non-None;
`probedSize` is `self.partedDevice.getSize()`; `storedSize` is `self._size`. -/
structure MDRaidArrayDevice where
  name : String
  level : ℕ
  memberSizes : List ℚ
  memberDevices : ℚ
  metadataVersion : String
  exists_ : Option Bool
  isBiosRaidArray : Bool
  hasPartedDevice : Bool
  probedSize : ℚ
  storedSize : ℚ
deriving Repr, DecidableEq

/-- `smallestMember.size` (`devices.py:2978-2984`): the size of the first
member after sorting by size, i.e. the minimum member size (`none` when there
are no members, in which case Python's `smallest` is `None` and dereferencing
it would fail -- the callers below check for emptiness first). -/
def MDRaidArrayDevice.smallestMemberSize (a : MDRaidArrayDevice) : Option ℚ :=
  a.memberSizes.min?

/-- `MDRaidArrayDevice.rawArraySize` (`devices.py:2922-2949`): the classic
parity arithmetic over the smallest member size, without chunk truncation or
superblock reservation.  Unknown levels fall through to the smallest member
size (with an error logged). -/
def MDRaidArrayDevice.rawArraySize (a : MDRaidArrayDevice) : ℚ :=
  let smallestMemberSize := a.smallestMemberSize.getD 0
  if a.level = 0 then a.memberDevices * smallestMemberSize
  else if a.level = 1 then smallestMemberSize
  else if a.level = 4 then (a.memberDevices - 1) * smallestMemberSize
  else if a.level = 5 then (a.memberDevices - 1) * smallestMemberSize
  else if a.level = 6 then (a.memberDevices - 2) * smallestMemberSize
  else if a.level = 10 then (a.memberDevices / 2) * smallestMemberSize
  else smallestMemberSize

/-- `MDRaidArrayDevice.superBlockSize` (`devices.py:2951-2976`): 2.0 MB for
metadata versions other than 1.1/1.2; for 1.1/1.2, the halving-headroom search
over `rawArraySize`, capped at 128 MB. -/
def MDRaidArrayDevice.superBlockSize (a : MDRaidArrayDevice) : ℚ :=
  if a.metadataVersion ≠ "1.1" ∧ a.metadataVersion ≠ "1.2" then 2
  else (sbHeadroomLoop a.rawArraySize 128 128 : ℚ)

/-- `MDRaidArrayDevice.size` (`devices.py:2986-3023`): 0 with no members;
the probed `_size` for BIOS RAID arrays; for an array that does not exist (or
has no parted device), the per-level parity arithmetic over
`smallestMember.size - superBlockSize` with chunk-size truncation on the
non-mirror levels, minus 1 MB "to account for unexpected metadata"; otherwise
the probed size. -/
def MDRaidArrayDevice.size (a : MDRaidArrayDevice) : ℚ :=
  if a.memberSizes = [] then 0
  else if a.isBiosRaidArray then a.storedSize
  else if ¬ truthy a.exists_ ∨ ¬ a.hasPartedDevice then
    let chunkSize : ℚ := 512 / 1024
    let smallestMemberSize := a.smallestMemberSize.getD 0 - a.superBlockSize
    let sz : ℚ :=
      if a.level = 0 then
        let s := a.memberDevices * smallestMemberSize
        s - pyFloatMod s chunkSize
      else if a.level = 1 then smallestMemberSize
      else if a.level = 4 then
        let s := (a.memberDevices - 1) * smallestMemberSize
        s - pyFloatMod s chunkSize
      else if a.level = 5 then
        let s := (a.memberDevices - 1) * smallestMemberSize
        s - pyFloatMod s chunkSize
      else if a.level = 6 then
        let s := (a.memberDevices - 2) * smallestMemberSize
        s - pyFloatMod s chunkSize
      else if a.level = 10 then
        let s := (a.memberDevices / 2) * smallestMemberSize
        s - pyFloatMod s chunkSize
      else 0
    sz - 1
  else a.probedSize

/-- A physical volume as seen by the volume group's size accounting: its
`size` and its format's `peStart` (reserved header, in MB). -/
structure PhysicalVolume where
  size : ℚ
  peStart : ℚ
deriving Repr, DecidableEq

/-- The per-LV fields read by the volume group's space accounting
(`vgSpaceUsed`, `devices.py:2473-2477`, and `snapshotSpace`): the LV's `size`
(for a non-existent LV the `size` property evaluates to `_size`), `copies`,
`logSize`, `metaDataSize` and `snapshotSpace`. -/
structure LogicalVolumeRec where
  size : ℚ
  copies : ℚ
  logSize : ℚ
  metaDataSize : ℚ
  snapshotSpace : ℚ
deriving Repr, DecidableEq

/-- The fields of `LVMVolumeGroupDevice` (`devices.py:1829-1896`) read by its
`align`, `size`, `snapshotSpace`, `reservedSpace` and `freeSpace` properties.
`peSize` defaults to 4.0 MB.  `lvs` is the reverse-lookup list `_lvs`;
`voriginSnapshots` lists the sizes in `self.voriginSnapshots.values()`. -/
structure LVMVolumeGroupDevice where
  name : String
  peSize : ℚ
  pvs : List PhysicalVolume
  lvs : List LogicalVolumeRec
  voriginSnapshots : List ℚ
  reserved_percent : ℚ
  reserved_space : ℚ
deriving Repr, DecidableEq

/-- `LVMVolumeGroupDevice.align` (`devices.py:2270-2282`): convert MB to KB,
divide by the extent size in KB, round (`math.ceil` if `roundup` is truthy,
else `math.floor`), multiply back by the extent size in KB, convert back to MB
through Python's `long()` truncation.  The Python float arithmetic is modelled
exactly over `ℚ`. -/
def LVMVolumeGroupDevice.align (vg : LVMVolumeGroupDevice) (size : ℚ)
    (roundup : Bool := false) : ℤ :=
  let sizeKB := size * 1024
  let pesize := vg.peSize * 1024
  let rounded : ℚ := if roundup then (⌈sizeKB / pesize⌉ : ℤ) else (⌊sizeKB / pesize⌋ : ℤ)
  pyLong (rounded * pesize / 1024)

/-- `LVMVolumeGroupDevice.size` (`devices.py:2231-2242`): the sum over member
physical volumes of `max(0, align(pv.size - pv.format.peStart))`. -/
def LVMVolumeGroupDevice.size (vg : LVMVolumeGroupDevice) : ℚ :=
  (vg.pvs.map (fun pv => max 0 ((vg.align (pv.size - pv.peStart) : ℤ) : ℚ))).sum

/-- `LVMVolumeGroupDevice.snapshotSpace` (`devices.py:2205-2218`): the sum of
`align(lv.snapshotSpace, roundup=True)` over the group's LVs plus the aligned
sizes of vorigin snapshots. -/
def LVMVolumeGroupDevice.snapshotSpace (vg : LVMVolumeGroupDevice) : ℚ :=
  (vg.lvs.map (fun lv => ((vg.align lv.snapshotSpace true : ℤ) : ℚ))).sum
    + (vg.voriginSnapshots.map (fun vsize => ((vg.align vsize true : ℤ) : ℚ))).sum

/-- `LVMVolumeGroupDevice.reservedSpace` (`devices.py:2220-2229`): an absolute
reservation or a percentage of `size` (whichever was configured, percent takes
precedence), aligned upward. -/
def LVMVolumeGroupDevice.reservedSpace (vg : LVMVolumeGroupDevice) : ℚ :=
  let reserved : ℚ :=
    if vg.reserved_percent > 0 then vg.reserved_percent * (1 / 100) * vg.size
    else if vg.reserved_space > 0 then vg.reserved_space
    else 0
  ((vg.align reserved true : ℤ) : ℚ)

/-- `LVMLogicalVolumeDevice.vgSpaceUsed` (`devices.py:2473-2477`):
`align(size, roundup=True) * copies + logSize + metaDataSize`. -/
def LogicalVolumeRec.vgSpaceUsed (vg : LVMVolumeGroupDevice) (lv : LogicalVolumeRec) : ℚ :=
  ((vg.align lv.size true : ℤ) : ℚ) * lv.copies + lv.logSize + lv.metaDataSize

/-- `LVMVolumeGroupDevice.freeSpace` (`devices.py:2251-2262`):
`size - (sum of lv.vgSpaceUsed + snapshotSpace + reservedSpace)`. -/
def LVMVolumeGroupDevice.freeSpace (vg : LVMVolumeGroupDevice) : ℚ :=
  vg.size -
    ((vg.lvs.map (LogicalVolumeRec.vgSpaceUsed vg)).sum + vg.snapshotSpace
      + vg.reservedSpace)

/-- The size fields of an `LVMLogicalVolumeDevice` that `_setSize` mutates:
the stored `_size` and the pending `targetSize`. -/
structure LvSizeState where
  _size : ℚ
  targetSize : ℚ
deriving Repr, DecidableEq

/-- `LVMLogicalVolumeDevice._setSize` (`devices.py:2461-2469`): align the new
size to the volume group's extent size (rounding down); if the aligned size
does not exceed `vg.freeSpace + self._size`, store it in both `_size` and
`targetSize`; otherwise raise `ValueError("not enough free space in volume
group")` before any assignment (and before any external call -- the method
makes none). -/
def LVMLogicalVolumeDevice._setSize (vg : LVMVolumeGroupDevice)
    (lv : LvSizeState) (size : ℚ) : Except StorageErr LvSizeState :=
  let aligned : ℤ := vg.align size
  if (aligned : ℚ) ≤ vg.freeSpace + lv._size then
    .ok { _size := (aligned : ℚ), targetSize := (aligned : ℚ) }
  else .error (.valueError "not enough free space in volume group")

/-- A parted geometry: a contiguous sector range on a device, stored as start
sector plus length; the last sector is `endSector = start + length - 1`.
Modelled from the spec: libparted/pyparted is an external collaborator (spec
sections 1 and 4.3); this follows libparted's `PedGeometry`. -/
structure Geometry where
  start : ℤ
  length : ℤ
deriving Repr, DecidableEq

/-- The last sector of a geometry (`geom.end` in pyparted). -/
def Geometry.endSector (g : Geometry) : ℤ := g.start + g.length - 1

/-- libparted `ped_geometry_test_sector_inside`. -/
def Geometry.testSectorInside (g : Geometry) (sector : ℤ) : Bool :=
  decide (g.start ≤ sector ∧ sector ≤ g.endSector)

/-- A parted alignment (`PedAlignment`): the set of sectors congruent to
`offset` modulo `grainSize`.  Modelled from the spec: libparted is an external
collaborator; disk label end alignments have positive `grainSize`. -/
structure PedAlignment where
  offset : ℤ
  grainSize : ℤ
deriving Repr, DecidableEq

/-- libparted `ped_round_down_to` (C `%` truncates toward zero). -/
def pedRoundDownTo (sector grain : ℤ) : ℤ := sector - Int.tmod sector grain

/-- libparted `ped_round_up_to`. -/
def pedRoundUpTo (sector grain : ℤ) : ℤ :=
  if Int.tmod sector grain ≠ 0 then pedRoundDownTo sector grain + grain else sector

/-- libparted `_align_up`: the alignment-respecting sector obtained by rounding
up, ignoring any geometry bound. -/
def PedAlignment.alignUpRaw (a : PedAlignment) (sector : ℤ) : ℤ :=
  pedRoundUpTo (sector - a.offset) a.grainSize + a.offset

/-- libparted `_align_down`. -/
def PedAlignment.alignDownRaw (a : PedAlignment) (sector : ℤ) : ℤ :=
  pedRoundDownTo (sector - a.offset) a.grainSize + a.offset

/-- libparted `_closest_inside_geometry`: move an aligned sector into the
geometry by whole grains, failing (pyparted raises `ArithmeticError`, modelled
as `none`) if the result still falls outside. -/
def PedAlignment.closestInsideGeometry (a : PedAlignment) (g : Geometry) (sector : ℤ) :
    Option ℤ :=
  if a.grainSize = 0 then
    if g.testSectorInside sector then some sector else none
  else
    let s1 := if sector < g.start then sector + pedRoundUpTo (g.start - sector) a.grainSize
              else sector
    let s2 := if s1 > g.endSector then s1 - pedRoundUpTo (s1 - g.endSector) a.grainSize
              else s1
    if g.testSectorInside s2 then some s2 else none

/-- pyparted `Alignment.alignUp(geometry, sector)` (libparted
`ped_alignment_align_up`): round up to the alignment, then move to the closest
aligned sector inside the geometry. -/
def PedAlignment.alignUp (a : PedAlignment) (g : Geometry) (sector : ℤ) : Option ℤ :=
  if a.grainSize = 0 then
    if a.offset = sector ∧ g.testSectorInside sector then some sector else none
  else a.closestInsideGeometry g (a.alignUpRaw sector)

/-- pyparted `Alignment.alignDown(geometry, sector)`. -/
def PedAlignment.alignDown (a : PedAlignment) (g : Geometry) (sector : ℤ) : Option ℤ :=
  if a.grainSize = 0 then
    if a.offset = sector ∧ g.testSectorInside sector then some sector else none
  else a.closestInsideGeometry g (a.alignDownRaw sector)

/-- The candidate geometry `_computeResize` builds before aligning the end:
same start sector as the current geometry, length
`long(targetSize * 1024 * 1024) / sectorSize` (Python 2 integer division). -/
def candidateGeometry (currentGeom : Geometry) (sectorSize : ℤ) (targetSize : ℚ) :
    Geometry :=
  { start := currentGeom.start,
    length := Int.fdiv (pyLong (targetSize * 1024 * 1024)) sectorSize }

/-- `PartitionDevice._computeResize` (`devices.py:1355-1376`): build the
candidate geometry preserving the start sector; if it is shorter than the
current geometry, align its end sector upward within the current (old)
geometry, else align it downward within the candidate geometry; setting
`newGeometry.end` keeps the start and adjusts the length.  The parted
`Constraint(exactGeom=...)` wrapper carries no further data and is omitted. -/
def PartitionDevice._computeResize (endAlignment : PedAlignment)
    (currentGeom : Geometry) (sectorSize : ℤ) (targetSize : ℚ) : Option Geometry :=
  let newGeometry := candidateGeometry currentGeom sectorSize targetSize
  if newGeometry.length < currentGeom.length then
    match endAlignment.alignUp currentGeom newGeometry.endSector with
    | none => none
    | some e => some { start := currentGeom.start, length := e - currentGeom.start + 1 }
  else
    match endAlignment.alignDown newGeometry newGeometry.endSector with
    | none => none
    | some e => some { start := currentGeom.start, length := e - currentGeom.start + 1 }

/-- The space `_computeResize` chooses to keep the new end sector inside: the
old geometry when shrinking, the newly computed candidate geometry when
growing. -/
def chosenSpace (currentGeom : Geometry) (sectorSize : ℤ) (targetSize : ℚ) :
    Geometry :=
  let newGeometry := candidateGeometry currentGeom sectorSize targetSize
  if newGeometry.length < currentGeom.length then currentGeom else newGeometry

/-- The concrete RAID1 array of the specification's scenario: three members of
sizes 100, 150 and 200 MB, default metadata version 1.1, not yet existing. -/
def mdC1 : MDRaidArrayDevice :=
  { name := "md0", level := 1, memberSizes := [100, 150, 200], memberDevices := 3,
    metadataVersion := "1.1", exists_ := some false, isBiosRaidArray := false,
    hasPartedDevice := false, probedSize := 0, storedSize := 0 }

/-! ## Helper lemmas -/

theorem Device.applyChildOps_kids (d : Device) (ops : List Bool) :
    (d.applyChildOps ops).kids =
      d.kids + ops.count true - ops.count false := by
  induction ops generalizing d with
  | nil => simp [Device.applyChildOps]
  | cons b rest ih =>
    cases b <;>
      simp [Device.applyChildOps, Device.addChild, Device.removeChild, ih,
        List.count_cons] <;> ring

theorem StorageDevice.create_ok (d : StorageDevice) (h : truthy d.exists_ = false)
    (hall : ∀ p ∈ d.parents, truthy p.exists_ = true) :
    StorageDevice.create d =
      .ok ({ d with exists_ := some true },
        d.parents.map (fun p => CreateEv.parentSetup p.name)
          ++ [CreateEv.markExists, CreateEv.selfSetup]) := by
  have hp : d.parents.all (fun p => truthy p.exists_) = true := by
    rw [List.all_eq_true]
    intro p hpmem
    exact hall p hpmem
  simp [StorageDevice.create, Device.createParents, h, hp]

theorem StorageDevice.create_parent_missing (d : StorageDevice)
    (h : truthy d.exists_ = false) (p : ParentDevice) (hp : p ∈ d.parents)
    (hpf : truthy p.exists_ = false) :
    StorageDevice.create d =
      .error (.deviceError "parent device does not exist" d.name) := by
  have hall : d.parents.all (fun q => truthy q.exists_) = false := by
    rw [List.all_eq_false]
    exact ⟨p, hp, by simp [hpf]⟩
  simp [StorageDevice.create, Device.createParents, h, hall]

theorem StorageDevice.destroy_ok (d : StorageDevice) (h : truthy d.exists_ = true)
    (hleaf : d.kids = 0) :
    StorageDevice.destroy d = .ok { d with exists_ := some false } := by
  simp [StorageDevice.destroy, h, hleaf]

theorem StorageDevice.destroy_nonleaf (d : StorageDevice)
    (h : truthy d.exists_ = true) (hk : d.kids ≠ 0) :
    StorageDevice.destroy d =
      .error (.deviceError "Cannot destroy non-leaf device" d.name) := by
  simp [StorageDevice.destroy, h, hk]

/-! ## Claim C5 -/

/-- C5 counterexample: the claim "after any sequence of addChild/removeChild
calls on a device, its child count remains greater than or equal to zero" is
false: a single `removeChild` on a device with zero children drives the
counter to -1, because `Device.removeChild` has no non-negativity guard. -/
theorem kids_nonnegative_claim_false :
    (Device.applyChildOps ⟨"vg", 0⟩ [false]).kids = -1 ∧
    ¬ 0 ≤ (Device.applyChildOps ⟨"vg", 0⟩ [false]).kids :=
  ⟨rfl, by decide⟩

/-- C5 (amended): `addChild()` and `removeChild()` adjust the child count by
plus and minus one with no lower-bound guard; after a sequence of calls the
count equals the initial count plus additions minus removals, and it is
nonnegative provided the removals in the sequence do not outnumber the initial
count plus the additions (as is the case when `removeChild` is only called for
previously added children). -/
theorem kids_adjust_amended (d : Device) (ops : List Bool)
    (h : (ops.count false : ℤ) ≤ d.kids + ops.count true) :
    (d.applyChildOps ops).kids = d.kids + ops.count true - ops.count false ∧
    0 ≤ (d.applyChildOps ops).kids := by
  have hk := Device.applyChildOps_kids d ops
  exact ⟨hk, by omega⟩

theorem kids_adjust_amended_witness :
    (Device.applyChildOps ⟨"disk0", 0⟩ [true, false]).kids =
      0 + [true, false].count true - [true, false].count false ∧
    0 ≤ (Device.applyChildOps ⟨"disk0", 0⟩ [true, false]).kids :=
  kids_adjust_amended ⟨"disk0", 0⟩ [true, false] (by decide)

/-! ## Claim C2 -/

/-- C2 counterexample: the claim says that when `exists` is not true,
`create()` recursively creates all parent devices (and so succeeds with a
non-existing parent).  On a device whose `exists` is `False` with one
non-existing parent, `create()` instead raises
`DeviceError("parent device does not exist")`: recursive parent creation is
disabled in `Device.createParents`. -/
theorem create_recursive_claim_false :
    truthy (StorageDevice.mk "md0" (some false) 0 [⟨"sda1", some false, 0⟩] none).exists_
        = false ∧
    StorageDevice.create (StorageDevice.mk "md0" (some false) 0 [⟨"sda1", some false, 0⟩] none)
        = .error (.deviceError "parent device does not exist" "md0") :=
  ⟨rfl, rfl⟩

/-- C2 (amended): `create()` raises `DeviceError` if `exists` is already true;
otherwise it checks that every parent already exists -- raising `DeviceError`
if one does not, since recursive parent creation is disabled -- and then sets
up all parents, marks the device as existing, and runs `setup`, in that
order. -/
theorem create_spec_amended (d : StorageDevice) :
    (truthy d.exists_ = true →
      StorageDevice.create d =
        .error (.deviceError "device has already been created" d.name)) ∧
    (truthy d.exists_ = false → (∀ p ∈ d.parents, truthy p.exists_ = true) →
      StorageDevice.create d =
        .ok ({ d with exists_ := some true },
          d.parents.map (fun p => CreateEv.parentSetup p.name)
            ++ [CreateEv.markExists, CreateEv.selfSetup])) ∧
    (truthy d.exists_ = false → ∀ p ∈ d.parents, truthy p.exists_ = false →
      StorageDevice.create d =
        .error (.deviceError "parent device does not exist" d.name)) := by
  refine ⟨fun h => by simp [StorageDevice.create, h],
    fun h hall => StorageDevice.create_ok d h hall,
    fun h p hp hpf => StorageDevice.create_parent_missing d h p hp hpf⟩

theorem create_spec_amended_witness :
    StorageDevice.create ⟨"md1", none, 0, [⟨"sdb1", some true, 1⟩], none⟩ =
      .ok (⟨"md1", some true, 0, [⟨"sdb1", some true, 1⟩], none⟩,
        [CreateEv.parentSetup "sdb1", CreateEv.markExists, CreateEv.selfSetup]) :=
  (create_spec_amended ⟨"md1", none, 0, [⟨"sdb1", some true, 1⟩], none⟩).2.1 rfl
    (by decide)

/-! ## Claim C4 -/

/-- C4 counterexample: the claim says `create()` then `destroy()` restores
`exists` to its pre-create value for every pre-create value (`None` or
`False`).  On a leaf device constructed with `exists = None`, the round trip
ends with `exists = False`, not `None`: `destroy` assigns `False`
unconditionally. -/
theorem create_destroy_roundtrip_claim_false :
    StorageDevice.createThenDestroy ⟨"lv0", none, 0, [⟨"vg0", some true, 1⟩], none⟩ =
      .ok ⟨"lv0", some false, 0, [⟨"vg0", some true, 1⟩], none⟩ ∧
    some false ≠ (StorageDevice.mk "lv0" none 0 [⟨"vg0", some true, 1⟩] none).exists_ :=
  ⟨rfl, by simp⟩

/-- C4 (amended): on a leaf `StorageDevice` whose parents all exist,
`create()` immediately followed by `destroy()` sets `exists` to `False` and
leaves the parent list (and hence every parent's child count) unchanged; this
restores the pre-create value of the tri-state `exists` flag when that value
was `False`, while a pre-create value of `None` ends up as `False`. -/
theorem create_destroy_roundtrip_amended (d : StorageDevice)
    (hpre : d.exists_ = none ∨ d.exists_ = some false)
    (hparents : ∀ p ∈ d.parents, truthy p.exists_ = true)
    (hleaf : d.kids = 0) :
    StorageDevice.createThenDestroy d = .ok { d with exists_ := some false } ∧
    ({ d with exists_ := some false } : StorageDevice).parents = d.parents := by
  have hfalse : truthy d.exists_ = false := by
    rcases hpre with h | h <;> simp [h, truthy]
  refine ⟨?_, rfl⟩
  rw [StorageDevice.createThenDestroy, StorageDevice.create_ok d hfalse hparents]
  exact StorageDevice.destroy_ok { d with exists_ := some true } (by simp [truthy])
    (by simpa using hleaf)

theorem create_destroy_roundtrip_amended_witness :
    StorageDevice.createThenDestroy ⟨"lv1", some false, 0, [⟨"vg1", some true, 1⟩], none⟩ =
      .ok ⟨"lv1", some false, 0, [⟨"vg1", some true, 1⟩], none⟩ ∧
    (StorageDevice.mk "lv1" (some false) 0 [⟨"vg1", some true, 1⟩] none).parents =
      [⟨"vg1", some true, 1⟩] :=
  create_destroy_roundtrip_amended ⟨"lv1", some false, 0, [⟨"vg1", some true, 1⟩], none⟩
    (Or.inr rfl) (by decide) rfl

/-! ## Claim C3 -/

/-- C3 counterexample: the claim says destroy() fails with `DeviceError` on
every non-leaf device, in particular on a logical volume (here a thin pool,
which is an `LVMLogicalVolumeDevice`) that still has a thin LV child, issuing
no external removal call.  The LVM implementation of `destroy` has no leaf
check: on an existing pool with one child it returns successfully and its
trace contains the external `lvm.lvremove` call. -/
theorem lv_destroy_nonleaf_claim_false :
    LVMLogicalVolumeDevice.destroy ⟨"pool0", some true, 1, []⟩ =
      .ok (⟨"pool0", some false, 1, []⟩,
        [LvmEv.teardownSelf, LvmEv.vgSetupParentsOrig, LvmEv.lvremoveSelf]) ∧
    LvmEv.lvremoveSelf ∈
      [LvmEv.teardownSelf, LvmEv.vgSetupParentsOrig, LvmEv.lvremoveSelf] ∧
    (LVMLogicalVolumeDevice.mk "pool0" (some true) 1 []).kids ≠ 0 :=
  ⟨rfl, by decide, by decide⟩

/-- C3 (amended): devices using the base `StorageDevice.destroy` raise
`DeviceError` whenever the device is not a leaf; `LVMLogicalVolumeDevice.
destroy`, however, checks only `exists`: on any existing logical volume --
leaf or not, including a pool that still has a thin-LV child -- it proceeds
and issues the external `lvm.lvremove` call. -/
theorem destroy_leaf_check_amended :
    (∀ d : StorageDevice, truthy d.exists_ = true → d.kids ≠ 0 →
      StorageDevice.destroy d =
        .error (.deviceError "Cannot destroy non-leaf device" d.name)) ∧
    (∀ lv : LVMLogicalVolumeDevice, truthy lv.exists_ = true →
      LVMLogicalVolumeDevice.destroy lv =
        .ok ({ lv with exists_ := some false },
          lv.snapshots.map LvmEv.lvremoveSnapshot
            ++ [LvmEv.teardownSelf, LvmEv.vgSetupParentsOrig, LvmEv.lvremoveSelf]) ∧
      LvmEv.lvremoveSelf ∈
        lv.snapshots.map LvmEv.lvremoveSnapshot
          ++ [LvmEv.teardownSelf, LvmEv.vgSetupParentsOrig, LvmEv.lvremoveSelf]) := by
  constructor
  · intro d hex hk
    exact StorageDevice.destroy_nonleaf d hex hk
  · intro lv hex
    refine ⟨?_, by simp⟩
    simp [LVMLogicalVolumeDevice.destroy, hex]

theorem destroy_leaf_check_amended_witness :
    StorageDevice.destroy ⟨"lv2", some true, 2, [], none⟩ =
      .error (.deviceError "Cannot destroy non-leaf device" "lv2") ∧
    LVMLogicalVolumeDevice.destroy ⟨"pool1", some true, 1, ["snap1"]⟩ =
      .ok (⟨"pool1", some false, 1, ["snap1"]⟩,
        [LvmEv.lvremoveSnapshot "snap1", LvmEv.teardownSelf,
          LvmEv.vgSetupParentsOrig, LvmEv.lvremoveSelf]) :=
  ⟨destroy_leaf_check_amended.1 ⟨"lv2", some true, 2, [], none⟩ rfl (by decide),
    (destroy_leaf_check_amended.2 ⟨"pool1", some true, 1, ["snap1"]⟩ rfl).1⟩

/-! ## Claim C6 -/

/-- C6: on every `StorageDevice` whose current format reports `status` true,
assigning a replacement format fails with `DeviceError("cannot replace active
format")`; the raise happens before the assignment, so the existing format is
left unchanged (the error result carries no new device state). -/
theorem setFormat_active_error (d : StorageDevice) (g : DeviceFormat)
    (f : Option DeviceFormat) (hg : d._format = some g) (hs : g.status = true) :
    StorageDevice._setFormat d f =
      .error (.deviceError "cannot replace active format" d.name) := by
  simp [StorageDevice._setFormat, hg, hs]

theorem setFormat_active_error_witness :
    StorageDevice._setFormat ⟨"sda1", some true, 0, [], some ⟨some "ext4", true, true⟩⟩
      (some ⟨some "xfs", false, false⟩) =
      .error (.deviceError "cannot replace active format" "sda1") :=
  setFormat_active_error ⟨"sda1", some true, 0, [], some ⟨some "ext4", true, true⟩⟩
    ⟨some "ext4", true, true⟩ (some ⟨some "xfs", false, false⟩) rfl rfl

/-! ## Claim C10 -/

/-- C10: on every `PartitionDevice` whose `exists` flag is truthy but whose
`sysfsPath` is empty, `destroy()` returns silently: no leaf-condition check is
performed (the theorem holds for any child count), nothing is removed from the
disklabel (the trace is empty), and the device state -- in particular
`exists` -- is unchanged. -/
theorem partition_destroy_no_sysfs_silent (commitOk : Bool) (d : PartitionDevice)
    (hex : truthy d.exists_ = true) (hpath : d.sysfsPath = "") :
    PartitionDevice.destroy commitOk d = .ok (d, []) := by
  simp [PartitionDevice.destroy, hex, hpath]

theorem partition_destroy_no_sysfs_silent_witness :
    PartitionDevice.destroy true ⟨"sda3", some true, "", 5⟩ =
      .ok (⟨"sda3", some true, "", 5⟩, []) ∧
    (PartitionDevice.mk "sda3" (some true) "" 5).kids ≠ 0 :=
  ⟨partition_destroy_no_sysfs_silent true ⟨"sda3", some true, "", 5⟩ rfl rfl,
    by decide⟩

/-! ## Claim C1 -/

/-- C1 counterexample: for the non-existent RAID1 array with members of 100,
150 and 200 MB, the claim says `size = 100 - superBlockSize`.  The code
computes `smallestMember.size - superBlockSize` and then subtracts one more
MB ("account for unexpected metadata"), so `size` is 99 while
`100 - superBlockSize` is 100 (the 1.1-metadata headroom search returns 0 for
a 100 MB array). -/
theorem md_size_raid1_claim_false :
    MDRaidArrayDevice.size mdC1 ≠ 100 - MDRaidArrayDevice.superBlockSize mdC1 := by
  have hsb : MDRaidArrayDevice.superBlockSize mdC1 = 0 := by
    rw [MDRaidArrayDevice.superBlockSize]
    norm_num [mdC1, MDRaidArrayDevice.rawArraySize, MDRaidArrayDevice.smallestMemberSize,
      List.min?]
    repeat (rw [sbHeadroomLoop]; norm_num)
  rw [MDRaidArrayDevice.size, hsb]
  norm_num [mdC1, MDRaidArrayDevice.smallestMemberSize, List.min?, truthy]
  simp

/-- C1 (amended): for the RAID1 array with three members of sizes 100, 150 and
200 MB that does not yet exist, the `size` property equals the smallest member
size minus the superblock reservation minus one additional MB of slack for
unexpected metadata: `100 - superBlockSize - 1 = 99` (with `superBlockSize =
0` from the 1.1-metadata headroom search on a 100 MB array). -/
theorem md_size_raid1_amended :
    MDRaidArrayDevice.size mdC1 = 100 - MDRaidArrayDevice.superBlockSize mdC1 - 1 ∧
    MDRaidArrayDevice.superBlockSize mdC1 = 0 ∧
    MDRaidArrayDevice.size mdC1 = 99 := by
  have hsb : MDRaidArrayDevice.superBlockSize mdC1 = 0 := by
    rw [MDRaidArrayDevice.superBlockSize]
    norm_num [mdC1, MDRaidArrayDevice.rawArraySize, MDRaidArrayDevice.smallestMemberSize,
      List.min?]
    repeat (rw [sbHeadroomLoop]; norm_num)
  have hsz : MDRaidArrayDevice.size mdC1 = 99 := by
    rw [MDRaidArrayDevice.size, hsb]
    norm_num [mdC1, MDRaidArrayDevice.smallestMemberSize, List.min?, truthy]
    simp
  exact ⟨by rw [hsz, hsb]; norm_num, hsb, hsz⟩

/-! ## Claim C7 -/

/-- C7: `LVMLogicalVolumeDevice._setSize` uses the volume-group-aligned value
of the requested size and requires it not to exceed `freeSpace` plus the LV's
current stored size (`self._size`); when the budget is respected it stores
the aligned value in both `_size` and `targetSize`, and otherwise it fails
with the insufficient-space `ValueError` without producing any new state --
the method issues no external call at all, so the failure precedes any
external mutation. -/
theorem lv_setSize_spec (vg : LVMVolumeGroupDevice) (lv : LvSizeState) (newsize : ℚ) :
    (((vg.align newsize : ℤ) : ℚ) ≤ vg.freeSpace + lv._size →
      LVMLogicalVolumeDevice._setSize vg lv newsize =
        .ok { _size := ((vg.align newsize : ℤ) : ℚ),
              targetSize := ((vg.align newsize : ℤ) : ℚ) }) ∧
    (¬ ((vg.align newsize : ℤ) : ℚ) ≤ vg.freeSpace + lv._size →
      LVMLogicalVolumeDevice._setSize vg lv newsize =
        .error (.valueError "not enough free space in volume group")) := by
  constructor
  · intro h
    simp [LVMLogicalVolumeDevice._setSize, h]
  · intro h
    simp [LVMLogicalVolumeDevice._setSize, h]

/-! ## Claim C8 -/

theorem align_roundup (vg : LVMVolumeGroupDevice) (s : ℚ) (hpe : vg.peSize ≠ 0) :
    vg.align s true = pyLong ((⌈s / vg.peSize⌉ : ℚ) * vg.peSize) := by
  have h1 : s * 1024 / (vg.peSize * 1024) = s / vg.peSize := by
    field_simp
    ring
  simp only [LVMVolumeGroupDevice.align, if_true, h1]
  congr 1
  field_simp
  ring

theorem pyLong_ceil_mul_idem (pe y : ℚ) (hpe : 0 < pe) (hy : 0 < y) :
    pyLong ((⌈((pyLong ((⌈y / pe⌉ : ℚ) * pe) : ℤ) : ℚ) / pe⌉ : ℚ) * pe)
      = pyLong ((⌈y / pe⌉ : ℚ) * pe) := by
  set k : ℤ := ⌈y / pe⌉ with hk
  have hkpos : 0 < k := Int.ceil_pos.mpr (div_pos hy hpe)
  have hvpos : (0 : ℚ) < (k : ℚ) * pe := mul_pos (by exact_mod_cast hkpos) hpe
  have hpy1 : pyLong ((k : ℚ) * pe) = ⌊(k : ℚ) * pe⌋ := by
    unfold pyLong
    rw [if_neg (not_lt.mpr (le_of_lt hvpos))]
  rw [hpy1]
  set n : ℤ := ⌊(k : ℚ) * pe⌋ with hn
  have hn0 : 0 ≤ n := Int.floor_nonneg.mpr (le_of_lt hvpos)
  have hceil_le : ⌈(n : ℚ) / pe⌉ ≤ k := by
    apply Int.ceil_le.mpr
    rw [div_le_iff₀ hpe]
    exact_mod_cast Int.floor_le ((k : ℚ) * pe)
  have hceil_ge : (n : ℚ) ≤ (⌈(n : ℚ) / pe⌉ : ℚ) * pe := by
    calc (n : ℚ) = (n : ℚ) / pe * pe := by field_simp
    _ ≤ (⌈(n : ℚ) / pe⌉ : ℚ) * pe :=
        mul_le_mul_of_nonneg_right (Int.le_ceil ((n : ℚ) / pe)) (le_of_lt hpe)
  have hc0 : 0 ≤ ⌈(n : ℚ) / pe⌉ :=
    Int.ceil_nonneg (div_nonneg (by exact_mod_cast hn0) (le_of_lt hpe))
  have hpy2 : pyLong ((⌈(n : ℚ) / pe⌉ : ℚ) * pe) = ⌊(⌈(n : ℚ) / pe⌉ : ℚ) * pe⌋ := by
    unfold pyLong
    rw [if_neg]
    push_neg
    exact mul_nonneg (by exact_mod_cast hc0) (le_of_lt hpe)
  rw [hpy2]
  have hub : ⌊(⌈(n : ℚ) / pe⌉ : ℚ) * pe⌋ ≤ n := by
    rw [hn]
    apply Int.floor_le_floor
    exact mul_le_mul_of_nonneg_right (by exact_mod_cast hceil_le) (le_of_lt hpe)
  have hlb : n ≤ ⌊(⌈(n : ℚ) / pe⌉ : ℚ) * pe⌋ := Int.le_floor.mpr hceil_ge
  omega

/-- C8: `LVMVolumeGroupDevice.align` computes exactly the MB-to-KB,
divide-by-extent-KB, ceiling-or-floor, multiply-back, truncate-back-to-MB
sequence of the source (that sequence is the definition of `align`, with
Python float arithmetic modelled exactly over `ℚ`); consequently
`align (align x roundup := true) roundup := true = align x roundup := true`
for every positive `x` (and any positive extent size). -/
theorem vg_align_idempotent (vg : LVMVolumeGroupDevice) (x : ℚ)
    (hpe : 0 < vg.peSize) (hx : 0 < x) :
    vg.align ((vg.align x true : ℤ) : ℚ) true = vg.align x true := by
  have hpe' : vg.peSize ≠ 0 := ne_of_gt hpe
  rw [align_roundup vg x hpe', align_roundup vg _ hpe']
  exact pyLong_ceil_mul_idem vg.peSize x hpe hx

theorem vg_align_idempotent_witness :
    (LVMVolumeGroupDevice.mk "vg8" 4 [] [] [] 0 0).align
        (((LVMVolumeGroupDevice.mk "vg8" 4 [] [] [] 0 0).align 7 true : ℤ) : ℚ) true =
      (LVMVolumeGroupDevice.mk "vg8" 4 [] [] [] 0 0).align 7 true :=
  vg_align_idempotent (LVMVolumeGroupDevice.mk "vg8" 4 [] [] [] 0 0) 7
    (by norm_num) (by norm_num)

theorem lv_setSize_spec_witness :
    LVMLogicalVolumeDevice._setSize
        (LVMVolumeGroupDevice.mk "vg7" 4 [⟨101, 1⟩] [] [] 0 0) ⟨0, 0⟩ 48 =
      .ok { _size := (((LVMVolumeGroupDevice.mk "vg7" 4 [⟨101, 1⟩] [] [] 0 0).align 48 : ℤ) : ℚ),
            targetSize :=
              (((LVMVolumeGroupDevice.mk "vg7" 4 [⟨101, 1⟩] [] [] 0 0).align 48 : ℤ) : ℚ) } :=
  (lv_setSize_spec (LVMVolumeGroupDevice.mk "vg7" 4 [⟨101, 1⟩] [] [] 0 0) ⟨0, 0⟩ 48).1 (by
    norm_num [LVMVolumeGroupDevice.align, LVMVolumeGroupDevice.freeSpace,
      LVMVolumeGroupDevice.size, LVMVolumeGroupDevice.snapshotSpace,
      LVMVolumeGroupDevice.reservedSpace, pyLong])

/-! ## Claim C9 -/

theorem closestInsideGeometry_some (a : PedAlignment) (g : Geometry) (s e : ℤ)
    (h : a.closestInsideGeometry g s = some e) : g.testSectorInside e = true := by
  simp only [PedAlignment.closestInsideGeometry] at h
  split_ifs at h <;>
    first
      | exact Option.noConfusion h
      | (injection h with h2; subst h2; assumption)

theorem alignUp_some (a : PedAlignment) (g : Geometry) (s e : ℤ)
    (h : a.alignUp g s = some e) : g.testSectorInside e = true := by
  simp only [PedAlignment.alignUp] at h
  split_ifs at h with h0 h1
  · injection h with h2
    subst h2
    exact h1.2
  · exact closestInsideGeometry_some a g _ e h

theorem alignDown_some (a : PedAlignment) (g : Geometry) (s e : ℤ)
    (h : a.alignDown g s = some e) : g.testSectorInside e = true := by
  simp only [PedAlignment.alignDown] at h
  split_ifs at h with h0 h1
  · injection h with h2
    subst h2
    exact h1.2
  · exact closestInsideGeometry_some a g _ e h

/-- C9: `PartitionDevice._computeResize` preserves the start sector and aligns
the end sector asymmetrically: when the candidate geometry is shorter than the
current one the end is aligned upward within the old (current) geometry, and
otherwise it is aligned downward within the newly computed candidate geometry
-- in both cases the resulting geometry's end sector lies inside the space
chosen for it (`chosenSpace`), so the new geometry never extends beyond it. -/
theorem computeResize_within_chosen_space (endAlignment : PedAlignment)
    (currentGeom : Geometry) (sectorSize : ℤ) (targetSize : ℚ) (g : Geometry)
    (h : PartitionDevice._computeResize endAlignment currentGeom sectorSize targetSize
        = some g) :
    g.start = currentGeom.start ∧
    (chosenSpace currentGeom sectorSize targetSize).testSectorInside g.endSector = true := by
  simp only [PartitionDevice._computeResize] at h
  unfold chosenSpace
  by_cases hlt :
      (candidateGeometry currentGeom sectorSize targetSize).length < currentGeom.length
  · rw [if_pos hlt] at h ⊢
    cases halign : endAlignment.alignUp currentGeom
        (candidateGeometry currentGeom sectorSize targetSize).endSector with
    | none => rw [halign] at h; cases h
    | some e =>
      rw [halign] at h
      injection h with h2
      subst h2
      have hmem := alignUp_some endAlignment currentGeom _ e halign
      have he : (Geometry.mk currentGeom.start (e - currentGeom.start + 1)).endSector = e := by
        simp only [Geometry.endSector]
        omega
      constructor
      · rfl
      · rw [he]; exact hmem
  · rw [if_neg hlt] at h ⊢
    cases halign : endAlignment.alignDown (candidateGeometry currentGeom sectorSize targetSize)
        (candidateGeometry currentGeom sectorSize targetSize).endSector with
    | none => rw [halign] at h; cases h
    | some e =>
      rw [halign] at h
      injection h with h2
      subst h2
      have hmem := alignDown_some endAlignment _ _ e halign
      have he : (Geometry.mk currentGeom.start (e - currentGeom.start + 1)).endSector = e := by
        simp only [Geometry.endSector]
        omega
      constructor
      · rfl
      · rw [he]; exact hmem

theorem computeResize_within_chosen_space_witness :
    PartitionDevice._computeResize ⟨0, 2048⟩ ⟨2048, 4096⟩ 512 1 = some ⟨2048, 2049⟩ ∧
    (Geometry.mk 2048 2049).start = (Geometry.mk 2048 4096).start ∧
    (chosenSpace ⟨2048, 4096⟩ 512 1).testSectorInside (Geometry.mk 2048 2049).endSector
      = true := by
  have hcomp : PartitionDevice._computeResize ⟨0, 2048⟩ ⟨2048, 4096⟩ 512 1
      = some ⟨2048, 2049⟩ := by
    simp only [PartitionDevice._computeResize, candidateGeometry, pyLong,
      PedAlignment.alignUp, PedAlignment.closestInsideGeometry, PedAlignment.alignUpRaw,
      pedRoundUpTo, pedRoundDownTo, Geometry.endSector, Geometry.testSectorInside]
    norm_num
    decide
  have hmain :=
    computeResize_within_chosen_space ⟨0, 2048⟩ ⟨2048, 4096⟩ 512 1 ⟨2048, 2049⟩ hcomp
  exact ⟨hcomp, hmain.1, hmain.2⟩
